import Mathlib

/-!
Verification development for the GL tile-based rendering state of
`WebCore/platform/graphics/android/GLWebViewState.h`.

The repository ships only the header: inline member bodies
(`scaleRequestState`, `setScaleRequestState`, `resetTransitionTime`, the
geometry getters) and the timing constants are code; the remaining members
(`scheduleUpdate`, `transparency`, `setViewport`, `frontPage`, `backPage`,
`swapPages`) and the texture-allocation policy of the TilesManager are only
declared or described, so they are modelled from the specification text.

C++ `double`/`float` time and scale values are modelled as rationals `ℚ`:
every constant involved (0.3, 0.1, 0.5, 2) is exactly representable, and no
claim exercises floating-point rounding.
-/

/-- Rectangle with the four Skia edge coordinates (`SkRect`). -/
structure SkRect where
  fLeft : ℚ
  fTop : ℚ
  fRight : ℚ
  fBottom : ℚ
deriving DecidableEq

/-- Source `SkRect::width()`. -/
def SkRect.width (r : SkRect) : ℚ := r.fRight - r.fLeft

/-- Source `SkRect::height()`. -/
def SkRect.height (r : SkRect) : ℚ := r.fBottom - r.fTop

/-- The two `TiledPage` objects owned by `GLWebViewState` (`m_tiledPageA`,
`m_tiledPageB`).  They are distinct heap objects in the source; we model the
object identities as a two-element type. -/
inductive TiledPageId where
  | pageA
  | pageB
deriving DecidableEq

/-- Header enumerator `GLWebViewState::GLScaleStates::kNoScaleRequest = 0`. -/
def kNoScaleRequest : Int := 0

/-- Header enumerator `GLWebViewState::GLScaleStates::kWillScheduleRequest = 1`. -/
def kWillScheduleRequest : Int := 1

/-- Header enumerator `GLWebViewState::GLScaleStates::kRequestNewScale = 2`. -/
def kRequestNewScale : Int := 2

/-- Header enumerator `GLWebViewState::GLScaleStates::kReceivedNewScale = 3`. -/
def kReceivedNewScale : Int := 3

/-- Header constant `s_updateInitialDelay = 0.3` (300 ms), delay before scheduling a new
page when the scale factor changes. -/
def s_updateInitialDelay : ℚ := 3 / 10

/-- Header constant `s_updateDelay = 0.1` (100 ms), push-back applied when the scale factor
keeps changing after the original delay. -/
def s_updateDelay : ℚ := 1 / 10

/-- Header constant `s_transitionDelay = 0.5` (500 ms), duration of the transition between
the two pages. -/
def s_transitionDelay : ℚ := 1 / 2

/-- Header constant `s_invTransitionDelay = 2`, the inverse of the transition duration. -/
def s_invTransitionDelay : ℚ := 2

/-- The `GLWebViewState` fields relevant to the verified claims.  Pointer
members (`m_baseLayer`, `m_extra`, `m_navLayer`, the two `TiledPage*`) and
the two mutexes are outside the modelled claims; the two tiled pages are
represented by the selector flag `m_usePageA` alone, since their identities
are fixed.  `m_viewportScale` and `m_invalidationCount` are modelled from
the spec: the spec requires `setViewport` to detect "unchanged arguments"
and to avoid re-triggering tile invalidation, so the model records the last
scale argument and counts geometry recomputations (each recomputation
invalidates/rebuilds the tile layout). -/
structure GLWebViewState where
  m_scaleRequestState : Int
  m_currentScale : ℚ
  m_futureScale : ℚ
  m_updateTime : ℚ
  m_transitionTime : ℚ
  m_originalTilesPosX : Int
  m_originalTilesPosY : Int
  m_viewport : SkRect
  m_viewportScale : ℚ
  m_nbTilesWidth : Int
  m_nbTilesHeight : Int
  m_firstTileX : Int
  m_firstTileY : Int
  m_currentPictureCounter : Nat
  m_invalidatedRect : SkRect
  m_invalidationCount : Nat
  m_usePageA : Bool
deriving DecidableEq

/-- Header inline member `scaleRequestState() const` returning `m_scaleRequestState` (inline in
the header). -/
def GLWebViewState.scaleRequestState (s : GLWebViewState) : Int :=
  s.m_scaleRequestState

/-- Header inline member `setScaleRequestState(GLScaleState state)` assigning `m_scaleRequestState = state`
(inline in the header). -/
def GLWebViewState.setScaleRequestState (s : GLWebViewState) (state : Int) :
    GLWebViewState :=
  { s with m_scaleRequestState := state }

/-- Header inline member `resetTransitionTime()` assigning `m_transitionTime = -1` (inline in the
header). -/
def GLWebViewState.resetTransitionTime (s : GLWebViewState) : GLWebViewState :=
  { s with m_transitionTime := -1 }

/-- clamp of `x` to `[lo, hi]`. -/
def clampQ (x lo hi : ℚ) : ℚ := max lo (min hi x)

/-- Modelled from the spec: `GLWebViewState::transparency(currentTime)` is
only declared in the header.  The spec states the timer value `-1` denotes
"no active transition" and any call in that state reports full opacity;
otherwise, with the transition started at `m_transitionTime`, opacity is
`clamp((D3 - elapsed) * (1/D3), 0, 1)` with `D3 = s_transitionDelay` and
`1/D3 = s_invTransitionDelay`. -/
def GLWebViewState.transparency (s : GLWebViewState) (currentTime : ℚ) : ℚ :=
  if s.m_transitionTime = -1 then 1
  else
    clampQ ((s_transitionDelay - (currentTime - s.m_transitionTime)) *
      s_invTransitionDelay) 0 1

/-- Modelled from the spec: `GLWebViewState::frontPage()` is only declared in
the header.  The front page is selected by `m_usePageA` between the two
owned `TiledPage` objects. -/
def GLWebViewState.frontPage (s : GLWebViewState) : TiledPageId :=
  if s.m_usePageA then TiledPageId.pageA else TiledPageId.pageB

/-- Modelled from the spec: `GLWebViewState::backPage()` is only declared in
the header.  The back page is the other of the two owned `TiledPage`
objects. -/
def GLWebViewState.backPage (s : GLWebViewState) : TiledPageId :=
  if s.m_usePageA then TiledPageId.pageB else TiledPageId.pageA

/-- Modelled from the spec: `GLWebViewState::swapPages()` is only declared in
the header.  The swap exchanges the front/back designation by flipping
`m_usePageA`, and starts the transition timer used to fade out the old
front grid ("the swap starts a transition timer"), recording the swap
time. -/
def GLWebViewState.swapPages (s : GLWebViewState) (currentTime : ℚ) :
    GLWebViewState :=
  { s with
    m_usePageA := !s.m_usePageA
    m_transitionTime := currentTime }

/-- Modelled from the spec: `GLWebViewState::scheduleUpdate(currentTime,
scale)` is only declared in the header.  Spec: a scale change in state
`kNoScaleRequest` moves to `kWillScheduleRequest` and sets the deadline
`s_updateInitialDelay` after the change; every further change while the
request is pending moves the deadline to `s_updateDelay` after that
change's time (not cumulatively) and records the new future scale; once the
deadline elapses with no further change the state moves to
`kRequestNewScale`. -/
def GLWebViewState.scheduleUpdate (s : GLWebViewState) (currentTime : ℚ)
    (scale : ℚ) : GLWebViewState :=
  if s.m_scaleRequestState = kNoScaleRequest then
    if scale ≠ s.m_currentScale then
      { s with
        m_scaleRequestState := kWillScheduleRequest
        m_futureScale := scale
        m_updateTime := currentTime + s_updateInitialDelay }
    else s
  else if s.m_scaleRequestState = kWillScheduleRequest then
    if scale ≠ s.m_futureScale then
      { s with
        m_futureScale := scale
        m_updateTime := currentTime + s_updateDelay }
    else if s.m_updateTime ≤ currentTime then
      { s with m_scaleRequestState := kRequestNewScale }
    else s
  else s

/-- Modelled from the spec: `GLWebViewState::setViewport(viewport, scale)` is
only declared in the header.  Spec: recomputes the tile-grid dimensions as
`ceil(viewportWidth / tileWidth) + pad` with a one-tile margin (similarly
for height) and the first visible tile indices from the viewport origin,
with viewport lengths taken at the grid's scale; it is idempotent on
unchanged arguments and then does not re-trigger tile invalidation.  The
tile dimensions (`TilesManager::tileWidth/tileHeight`, absent from the
sources) are passed as parameters. -/
def GLWebViewState.setViewport (s : GLWebViewState) (tileWidth tileHeight : ℚ)
    (viewport : SkRect) (scale : ℚ) : GLWebViewState :=
  if s.m_viewport = viewport ∧ s.m_viewportScale = scale then s
  else
    { s with
      m_viewport := viewport
      m_viewportScale := scale
      m_nbTilesWidth := ⌈viewport.width * scale / tileWidth⌉ + 1
      m_nbTilesHeight := ⌈viewport.height * scale / tileHeight⌉ + 1
      m_firstTileX := ⌊viewport.fLeft * scale / tileWidth⌋
      m_firstTileY := ⌊viewport.fTop * scale / tileHeight⌋
      m_invalidationCount := s.m_invalidationCount + 1 }

/-- Modelled from the spec: the state GLWebViewState() constructs — no scale
request pending, unit scale, no scheduled update, no active transition
(timer at the `-1` sentinel), empty viewport at the origin. -/
def initState : GLWebViewState :=
  { m_scaleRequestState := kNoScaleRequest
    m_currentScale := 1
    m_futureScale := 1
    m_updateTime := -1
    m_transitionTime := -1
    m_originalTilesPosX := 0
    m_originalTilesPosY := 0
    m_viewport := ⟨0, 0, 0, 0⟩
    m_viewportScale := 0
    m_nbTilesWidth := 0
    m_nbTilesHeight := 0
    m_firstTileX := 0
    m_firstTileY := 0
    m_currentPictureCounter := 0
    m_invalidatedRect := ⟨0, 0, 0, 0⟩
    m_invalidationCount := 0
    m_usePageA := true }

/-- Modelled from the spec: the only failure of texture reservation is
`OutOfTextures` (transient, recoverable by retry). -/
inductive ReserveError where
  | OutOfTextures
deriving DecidableEq

/-- Modelled from the spec: the shared texture pool of the TilesManager
(absent from the sources).  Each texture (a pool index `< numTextures`)
carries the data-model attributes: an owner back-reference (which tile
currently holds it, if any), the last-used distance-from-viewport metric,
and the grid it was last associated with.  `prevTex` records, per tile, the
texture the tile was granted in its most recent successful reservation
("previously held a texture from a prior preparation pass"). -/
structure TexturePool where
  numTextures : Nat
  owner : Nat → Option Nat
  lastGrid : Nat → TiledPageId
  lastDistance : Nat → Nat
  prevTex : Nat → Option Nat

/-- Modelled from the spec: a texture is available for reservation when it
is free (no owner) or reclaimable (its holder lies outside the live
viewport of its grid, i.e. at positive distance); a texture held by a tile
within the live viewport of some grid cannot be reclaimed. -/
def TexturePool.freeOrReclaimable (p : TexturePool) (i : Nat) : Bool :=
  match p.owner i with
  | none => true
  | some _ => decide (0 < p.lastDistance i)

/-- Modelled from the spec: the candidate textures of a reservation — the
free or reclaimable members of the pool. -/
def TexturePool.candidates (p : TexturePool) : List Nat :=
  (List.range p.numTextures).filter fun i => p.freeOrReclaimable i

/-- Modelled from the spec: strict preference between two candidate
textures for a requester on `grid` — a texture whose holder is farther
from the viewport is preferred, and among equally distant ones a texture
last associated with a different grid than the requester is preferred. -/
def TexturePool.strictlyPreferred (p : TexturePool) (grid : TiledPageId)
    (a b : Nat) : Bool :=
  decide (p.lastDistance b < p.lastDistance a) ||
    (decide (p.lastDistance a = p.lastDistance b) &&
      decide (p.lastGrid a ≠ grid) && decide (p.lastGrid b = grid))

/-- Modelled from the spec: pick the best candidate of a list under
`strictlyPreferred`, keeping the earlier candidate on ties. -/
def TexturePool.pickBest (p : TexturePool) (grid : TiledPageId)
    (l : List Nat) : Option Nat :=
  l.foldl
    (fun acc i =>
      match acc with
      | none => some i
      | some b => if p.strictlyPreferred grid i b then some i else some b)
    none

/-- Modelled from the spec: granting texture `x` to `tile` of `grid` whose
distance from the viewport is `dist` — the owner back-reference, last
grid, and last-used distance of `x` are updated, and the tile records `x`
as the texture it now holds. -/
def TexturePool.grant (p : TexturePool) (tile : Nat) (grid : TiledPageId)
    (dist : Nat) (x : Nat) : TexturePool :=
  { p with
    owner := Function.update p.owner x (some tile)
    lastGrid := Function.update p.lastGrid x grid
    lastDistance := Function.update p.lastDistance x dist
    prevTex := Function.update p.prevTex tile (some x) }

/-- Modelled from the spec: the re-grant test — `tile` previously held the
valid texture `x` and `x` is still unassigned elsewhere (free, or still
held by `tile` itself). -/
def TexturePool.regrantOk (p : TexturePool) (tile x : Nat) : Bool :=
  decide (x < p.numTextures) &&
    (p.owner x == none || p.owner x == some tile)

/-- Whether the re-grant step of the reservation policy applies to `tile`. -/
def TexturePool.regrantApplies (p : TexturePool) (tile : Nat) : Bool :=
  match p.prevTex tile with
  | some x => p.regrantOk tile x
  | none => false

/-- Modelled from the spec: eviction step of `reserve` — among free or
reclaimable textures pick the preferred one; with no candidate the
reservation fails with `OutOfTextures`. -/
def TexturePool.reserveEvict (p : TexturePool) (tile : Nat)
    (grid : TiledPageId) (dist : Nat) :
    Except ReserveError (Nat × TexturePool) :=
  match p.pickBest grid p.candidates with
  | some c => Except.ok (c, p.grant tile grid dist c)
  | none => Except.error ReserveError.OutOfTextures

/-- Modelled from the spec: `reserve(tile, grid, distanceFromViewport)` of
the TilesManager (absent from the sources), in the spec's strict priority
order: (1) if the tile previously held a texture that is still unassigned
elsewhere, re-grant that texture; (2)–(3) otherwise evict the preferred
free-or-reclaimable candidate; otherwise fail with `OutOfTextures`. -/
def TexturePool.reserve (p : TexturePool) (tile : Nat) (grid : TiledPageId)
    (dist : Nat) : Except ReserveError (Nat × TexturePool) :=
  match p.prevTex tile with
  | some x =>
      if p.regrantOk tile x then Except.ok (x, p.grant tile grid dist x)
      else p.reserveEvict tile grid dist
  | none => p.reserveEvict tile grid dist

/-- The pool state after a reservation attempt: the updated pool on
success, the unchanged pool on failure (the requesting tile is simply left
unready). -/
def TexturePool.reserveApply (p : TexturePool) (tile : Nat)
    (grid : TiledPageId) (dist : Nat) : TexturePool :=
  match p.reserve tile grid dist with
  | Except.ok r => r.2
  | Except.error _ => p

/-- The texture a reservation attempt returned, if any. -/
def reservedTexture (r : Except ReserveError (Nat × TexturePool)) :
    Option Nat :=
  match r with
  | Except.ok x => some x.1
  | Except.error _ => none

/-- Modelled from the spec: a tile releasing its texture back to the pool
(its result "becomes eligible for reclamation"). -/
def TexturePool.releaseTexture (p : TexturePool) (j : Nat) : TexturePool :=
  { p with owner := Function.update p.owner j none }

/-- Exclusivity: no two distinct pool textures are held by the same tile. -/
def ExclusiveOwnership (p : TexturePool) : Prop :=
  ∀ i, i < p.numTextures → ∀ j, j < p.numTextures → i ≠ j →
    p.owner i = none ∨ p.owner i ≠ p.owner j

/-- A held texture's holder points back at it through `prevTex`. -/
def ownerLinkOk (p : TexturePool) (i : Nat) : Bool :=
  match p.owner i with
  | none => true
  | some t => p.prevTex t == some i

/-- Every held texture's holder records it as its current texture. -/
def OwnerConsistent (p : TexturePool) : Prop :=
  ∀ i, i < p.numTextures → ownerLinkOk p i = true

/-- The reservation-state invariant: exclusive ownership together with the
owner/holder back-reference consistency. -/
def PoolInv (p : TexturePool) : Prop :=
  ExclusiveOwnership p ∧ OwnerConsistent p

instance (p : TexturePool) : Decidable (ExclusiveOwnership p) := by
  unfold ExclusiveOwnership; infer_instance

instance (p : TexturePool) : Decidable (OwnerConsistent p) := by
  unfold OwnerConsistent; infer_instance

instance (p : TexturePool) : Decidable (PoolInv p) := by
  unfold PoolInv; infer_instance

/-- Concrete pool: its single texture is held by tile 9 inside the live
viewport (distance 0), so nothing is free or reclaimable. -/
def poolExhausted : TexturePool :=
  { numTextures := 1
    owner := fun i => if i = 0 then some 9 else none
    lastGrid := fun _ => TiledPageId.pageA
    lastDistance := fun _ => 0
    prevTex := fun t => if t = 9 then some 0 else none }

/-- Concrete pool: tile 7 previously held texture 0, which is now free;
texture 1 is free and farther from the viewport. -/
def poolRegrant : TexturePool :=
  { numTextures := 2
    owner := fun _ => none
    lastGrid := fun _ => TiledPageId.pageA
    lastDistance := fun i => if i = 0 then 1 else 5
    prevTex := fun t => if t = 7 then some 0 else none }

/-- Concrete pool: tile 7 previously held texture 0, but texture 0 has
since been granted to tile 5 and now sits at distance 3 (reclaimable);
texture 1 is held by tile 6 at distance 10, farther from the viewport. -/
def poolStolen : TexturePool :=
  { numTextures := 2
    owner := fun i => if i = 0 then some 5 else some 6
    lastGrid := fun _ => TiledPageId.pageA
    lastDistance := fun i => if i = 0 then 3 else 10
    prevTex := fun t =>
      if t = 7 then some 0
      else if t = 5 then some 0
      else if t = 6 then some 1
      else none }

/-- Numeric rank of a candidate texture: encodes the (distance, other-grid)
lexicographic preference of the reservation policy into one number. -/
def rankKey (p : TexturePool) (grid : TiledPageId) (i : Nat) : Nat :=
  2 * p.lastDistance i + (if p.lastGrid i = grid then 0 else 1)

lemma strictlyPreferred_iff_rankKey (p : TexturePool) (grid : TiledPageId)
    (a b : Nat) :
    p.strictlyPreferred grid a b = true ↔
      rankKey p grid b < rankKey p grid a := by
  simp only [TexturePool.strictlyPreferred, rankKey, Bool.or_eq_true,
    Bool.and_eq_true, decide_eq_true_eq]
  by_cases ha : p.lastGrid a = grid <;> by_cases hb : p.lastGrid b = grid <;>
    simp [ha, hb] <;> omega

lemma pickFold_spec (p : TexturePool) (grid : TiledPageId) (l : List Nat) :
    ∀ b : Nat,
      ∃ c,
        l.foldl
          (fun acc i =>
            match acc with
            | none => some i
            | some b' =>
                if p.strictlyPreferred grid i b' then some i else some b')
          (some b) = some c ∧
        (c = b ∨ c ∈ l) ∧ rankKey p grid b ≤ rankKey p grid c ∧
        ∀ d ∈ l, rankKey p grid d ≤ rankKey p grid c := by
  induction l with
  | nil => intro b; exact ⟨b, rfl, Or.inl rfl, le_refl _, by simp⟩
  | cons a l ih =>
      intro b
      by_cases hpref : p.strictlyPreferred grid a b = true
      · obtain ⟨c, hc, hmem, hge, hall⟩ := ih a
        refine ⟨c, ?_, ?_, ?_, ?_⟩
        · simpa [List.foldl_cons, hpref] using hc
        · rcases hmem with h | h
          · exact Or.inr (by simp [h])
          · exact Or.inr (by simp [h])
        · have := (strictlyPreferred_iff_rankKey p grid a b).mp hpref
          omega
        · intro d hd
          rcases List.mem_cons.mp hd with h | h
          · subst h; exact hge
          · exact hall d h
      · obtain ⟨c, hc, hmem, hge, hall⟩ := ih b
        have hpref' : p.strictlyPreferred grid a b = false :=
          Bool.eq_false_iff.mpr hpref
        refine ⟨c, ?_, ?_, hge, ?_⟩
        · simpa [List.foldl_cons, hpref'] using hc
        · rcases hmem with h | h
          · exact Or.inl h
          · exact Or.inr (by simp [h])
        · intro d hd
          rcases List.mem_cons.mp hd with h | h
          · subst h
            have : ¬ rankKey p grid b < rankKey p grid d := by
              intro hlt
              exact hpref ((strictlyPreferred_iff_rankKey p grid d b).mpr hlt)
            omega
          · exact hall d h

lemma pickBest_nil (p : TexturePool) (grid : TiledPageId) :
    p.pickBest grid [] = none := rfl

lemma pickBest_spec (p : TexturePool) (grid : TiledPageId) (l : List Nat)
    (c : Nat) (h : p.pickBest grid l = some c) :
    c ∈ l ∧ ∀ d ∈ l, rankKey p grid d ≤ rankKey p grid c := by
  cases l with
  | nil => simp [pickBest_nil] at h
  | cons a l =>
      obtain ⟨c', hc', hmem, hge, hall⟩ := pickFold_spec p grid l a
      have hpb : p.pickBest grid (a :: l) = some c' := by
        simpa [TexturePool.pickBest, List.foldl_cons] using hc'
      have hcc : c' = c := by rw [hpb] at h; exact Option.some.inj h
      subst hcc
      refine ⟨?_, ?_⟩
      · rcases hmem with h' | h'
        · simp [h']
        · simp [h']
      · intro d hd
        rcases List.mem_cons.mp hd with h' | h'
        · subst h'; exact hge
        · exact hall d h'

lemma pickBest_isSome (p : TexturePool) (grid : TiledPageId) (l : List Nat)
    (h : l ≠ []) : (p.pickBest grid l).isSome = true := by
  cases l with
  | nil => exact absurd rfl h
  | cons a l =>
      obtain ⟨c', hc', _, _, _⟩ := pickFold_spec p grid l a
      have hpb : p.pickBest grid (a :: l) = some c' := by
        simpa [TexturePool.pickBest, List.foldl_cons] using hc'
      simp [hpb]

lemma pickBest_not_preferred (p : TexturePool) (grid : TiledPageId)
    (l : List Nat) (c : Nat) (h : p.pickBest grid l = some c) :
    ∀ d ∈ l, p.strictlyPreferred grid d c = false := by
  intro d hd
  obtain ⟨_, hall⟩ := pickBest_spec p grid l c h
  refine Bool.eq_false_iff.mpr fun hpref => ?_
  have := (strictlyPreferred_iff_rankKey p grid d c).mp hpref
  have := hall d hd
  omega

lemma mem_candidates (p : TexturePool) (i : Nat) :
    i ∈ p.candidates ↔
      i < p.numTextures ∧ p.freeOrReclaimable i = true := by
  simp [TexturePool.candidates, List.mem_filter, List.mem_range]

lemma ownerLink_prevTex (p : TexturePool) (i t : Nat)
    (hcons : ownerLinkOk p i = true) (howner : p.owner i = some t) :
    p.prevTex t = some i := by
  simpa [ownerLinkOk, howner] using hcons

lemma grant_PoolInv (p : TexturePool) (tile : Nat) (grid : TiledPageId)
    (dist x : Nat) (hx : x < p.numTextures) (hinv : PoolInv p)
    (huniq : ∀ j, j < p.numTextures → p.owner j = some tile → j = x) :
    PoolInv (p.grant tile grid dist x) := by
  obtain ⟨hexc, hcons⟩ := hinv
  constructor
  · intro i hi j hj hij
    simp only [TexturePool.grant] at hi hj ⊢
    by_cases hix : i = x
    · subst hix
      refine Or.inr ?_
      rw [Function.update_same, Function.update_noteq (Ne.symm hij)]
      intro hcontra
      exact hij (huniq j hj hcontra.symm).symm
    · rw [Function.update_noteq hix]
      by_cases hjx : j = x
      · subst hjx
        rw [Function.update_same]
        cases howner : p.owner i with
        | none => exact Or.inl rfl
        | some t =>
            refine Or.inr fun hcontra => ?_
            have ht : t = tile := by simpa using hcontra
            subst ht
            exact hix (huniq i hi howner)
      · rw [Function.update_noteq hjx]
        exact hexc i hi j hj hij
  · intro i hi
    simp only [TexturePool.grant] at hi
    by_cases hix : i = x
    · subst hix
      simp [ownerLinkOk, TexturePool.grant, Function.update_same]
    · have howneq :
          (p.grant tile grid dist x).owner i = p.owner i := by
        simp [TexturePool.grant, Function.update_noteq hix]
      cases howner : p.owner i with
      | none => simp [ownerLinkOk, howneq, howner]
      | some t =>
          have htne : t ≠ tile := fun ht => by
            subst ht
            exact hix (huniq i hi howner)
          have hprev : p.prevTex t = some i :=
            ownerLink_prevTex p i t (hcons i hi) howner
          simp [ownerLinkOk, TexturePool.grant, Function.update_noteq hix,
            Function.update_noteq htne, howner, hprev]

lemma pickBest_eq_none (p : TexturePool) (grid : TiledPageId) (l : List Nat)
    (h : p.pickBest grid l = none) : l = [] := by
  by_contra hne
  have := pickBest_isSome p grid l hne
  simp [h] at this

lemma reserveEvict_ok_cases (p : TexturePool) (tile : Nat)
    (grid : TiledPageId) (dist : Nat) (c : Nat) (p' : TexturePool)
    (h : p.reserveEvict tile grid dist = Except.ok (c, p')) :
    p.pickBest grid p.candidates = some c ∧
      p' = p.grant tile grid dist c := by
  unfold TexturePool.reserveEvict at h
  cases hpick : p.pickBest grid p.candidates with
  | some c0 =>
      rw [hpick] at h
      simp only [Except.ok.injEq, Prod.mk.injEq] at h
      obtain ⟨h1, h2⟩ := h
      subst h1
      exact ⟨rfl, h2.symm⟩
  | none => rw [hpick] at h; exact absurd h (by simp)

lemma reserveEvict_error_iff (p : TexturePool) (tile : Nat)
    (grid : TiledPageId) (dist : Nat) :
    p.reserveEvict tile grid dist = Except.error ReserveError.OutOfTextures ↔
      p.candidates = [] := by
  unfold TexturePool.reserveEvict
  cases hpick : p.pickBest grid p.candidates with
  | some c0 =>
      refine iff_of_false (by simp) fun h => ?_
      rw [h, pickBest_nil] at hpick
      exact absurd hpick (by simp)
  | none =>
      exact iff_of_true rfl (pickBest_eq_none p grid _ hpick)

lemma no_owner_of_not_regrant (p : TexturePool) (tile : Nat)
    (hcons : OwnerConsistent p) (hnot : p.regrantApplies tile = false) :
    ∀ j, j < p.numTextures → p.owner j ≠ some tile := by
  intro j hj howner
  have hprev := ownerLink_prevTex p j tile (hcons j hj) howner
  unfold TexturePool.regrantApplies at hnot
  rw [hprev] at hnot
  simp [TexturePool.regrantOk, hj, howner] at hnot

lemma reserve_eq_evict_of_not_regrant (p : TexturePool) (tile : Nat)
    (grid : TiledPageId) (dist : Nat)
    (hnot : p.regrantApplies tile = false) :
    p.reserve tile grid dist = p.reserveEvict tile grid dist := by
  unfold TexturePool.reserve
  cases hprev : p.prevTex tile with
  | some x =>
      have hok : p.regrantOk tile x = false := by
        unfold TexturePool.regrantApplies at hnot
        rwa [hprev] at hnot
      simp [hok]
  | none => rfl

lemma reserve_eq_regrant (p : TexturePool) (tile : Nat)
    (grid : TiledPageId) (dist : Nat) (x : Nat)
    (hprev : p.prevTex tile = some x) (hx : x < p.numTextures)
    (hown : p.owner x = none ∨ p.owner x = some tile) :
    p.reserve tile grid dist = Except.ok (x, p.grant tile grid dist x) := by
  unfold TexturePool.reserve
  rw [hprev]
  have hok : p.regrantOk tile x = true := by
    rcases hown with h | h <;> simp [TexturePool.regrantOk, hx, h]
  simp [hok]

lemma reserve_error_evict (p : TexturePool) (tile : Nat)
    (grid : TiledPageId) (dist : Nat) (e : ReserveError)
    (h : p.reserve tile grid dist = Except.error e) :
    p.reserveEvict tile grid dist = Except.error e := by
  unfold TexturePool.reserve at h
  cases hprev : p.prevTex tile with
  | some x =>
      rw [hprev] at h
      cases hok : p.regrantOk tile x with
      | false => simpa [hok] using h
      | true => simp [hok] at h
  | none => rw [hprev] at h; exact h

/-- C4: reservation exclusivity — if every texture of the pool is held by
at most one tile (with consistent holder back-references), the same holds
after any `reserve` operation, whether it succeeds or fails; no two tiles
of either grid ever reference the same texture simultaneously. -/
theorem c4_reservation_exclusive (p : TexturePool) (tile : Nat)
    (grid : TiledPageId) (dist : Nat) (hinv : PoolInv p) :
    PoolInv (p.reserveApply tile grid dist) := by
  obtain ⟨hexc, hcons⟩ := hinv
  unfold TexturePool.reserveApply
  by_cases hreg : p.regrantApplies tile = true
  · unfold TexturePool.regrantApplies at hreg
    cases hprev : p.prevTex tile with
    | none => rw [hprev] at hreg; exact absurd hreg (by simp)
    | some x =>
        rw [hprev] at hreg
        have hx : x < p.numTextures ∧
            (p.owner x = none ∨ p.owner x = some tile) := by
          simpa [TexturePool.regrantOk] using hreg
        rw [reserve_eq_regrant p tile grid dist x hprev hx.1 hx.2]
        exact grant_PoolInv p tile grid dist x hx.1 ⟨hexc, hcons⟩
          fun j hj hjowner => by
            have hp := ownerLink_prevTex p j tile (hcons j hj) hjowner
            rw [hprev] at hp
            exact (Option.some.inj hp).symm
  · have hreg' : p.regrantApplies tile = false := by
      cases h : p.regrantApplies tile
      · rfl
      · exact absurd h hreg
    rw [reserve_eq_evict_of_not_regrant p tile grid dist hreg']
    cases hevict : p.reserveEvict tile grid dist with
    | ok r =>
        obtain ⟨c, p'⟩ := r
        obtain ⟨hpick, hp'⟩ :=
          reserveEvict_ok_cases p tile grid dist c p' hevict
        have hcmem := (pickBest_spec p grid _ c hpick).1
        have hclt := ((mem_candidates p c).mp hcmem).1
        show PoolInv p'
        rw [hp']
        exact grant_PoolInv p tile grid dist c hclt ⟨hexc, hcons⟩
          fun j hj hjowner =>
            absurd hjowner (no_owner_of_not_regrant p tile hcons hreg' j hj)
    | error e => exact ⟨hexc, hcons⟩

/-- Witness for C4 at a concrete pool: the invariant still holds after
tile 7 reserves a texture from a fully assigned pool. -/
theorem c4_reservation_exclusive_witness :
    PoolInv (poolStolen.reserveApply 7 TiledPageId.pageA 0) :=
  c4_reservation_exclusive poolStolen 7 TiledPageId.pageA 0 (by decide)

/-- C3 (amended): the reservation priority order — (1) if the requesting
tile previously held a texture that is still unassigned elsewhere (free or
still held by that tile), `reserve` re-grants that same texture; (2)–(3)
otherwise the texture returned is a free-or-reclaimable candidate over
which no other candidate is strictly preferred, where a candidate is
strictly preferred when its holder is farther from the viewport, or
equally far but last associated with a different grid than the requester
while the chosen one belongs to the requester's grid. -/
theorem c3_reserve_priority (p : TexturePool) (tile : Nat)
    (grid : TiledPageId) (dist : Nat) :
    (∀ x, p.prevTex tile = some x → x < p.numTextures →
        (p.owner x = none ∨ p.owner x = some tile) →
        p.reserve tile grid dist =
          Except.ok (x, p.grant tile grid dist x)) ∧
    (p.regrantApplies tile = false →
        ∀ c p', p.reserve tile grid dist = Except.ok (c, p') →
          c ∈ p.candidates ∧ p' = p.grant tile grid dist c ∧
          ∀ d ∈ p.candidates, p.strictlyPreferred grid d c = false) := by
  constructor
  · intro x hprev hx hown
    exact reserve_eq_regrant p tile grid dist x hprev hx hown
  · intro hreg c p' hok
    rw [reserve_eq_evict_of_not_regrant p tile grid dist hreg] at hok
    obtain ⟨hpick, hp'⟩ := reserveEvict_ok_cases p tile grid dist c p' hok
    exact ⟨(pickBest_spec p grid _ c hpick).1, hp',
      pickBest_not_preferred p grid _ c hpick⟩

/-- Witness for C3 at a concrete pool: tile 7 is re-granted its previous
texture 0 even though the free texture 1 is farther from the viewport. -/
theorem c3_reserve_priority_witness :
    poolRegrant.reserve 7 TiledPageId.pageA 4 =
      Except.ok (0, poolRegrant.grant 7 TiledPageId.pageA 4 0) :=
  (c3_reserve_priority poolRegrant 7 TiledPageId.pageA 4).1 0 rfl
    (by decide) (Or.inl rfl)

/-- Counterexample to C3 as stated: tile 7 held texture 0 in a prior pass
and texture 0 is still reclaimable (held by tile 5 at positive distance),
yet tile 7 is not re-granted texture 0 — the farther texture 1 is chosen
instead, because the re-grant step requires the previous texture to be
unassigned elsewhere, not merely reclaimable. -/
theorem c3_reserve_priority_counterexample :
    PoolInv poolStolen ∧ poolStolen.prevTex 7 = some 0 ∧
    poolStolen.freeOrReclaimable 0 = true ∧
    reservedTexture (poolStolen.reserve 7 TiledPageId.pageA 0) = some 1 ∧
    reservedTexture (poolStolen.reserve 7 TiledPageId.pageA 0) ≠ some 0 := by
  decide

/-- C8: `OutOfTextures` is the only reservation failure; with no re-grant
available it occurs exactly when no texture is free or reclaimable; on
failure the pool state is unchanged (the requesting tile is simply left
unready); and the failure is recoverable — once any texture is released
back to the pool, retrying the same reservation succeeds. -/
theorem c8_out_of_textures_recoverable (p : TexturePool) (tile : Nat)
    (grid : TiledPageId) (dist : Nat) :
    (∀ e, p.reserve tile grid dist = Except.error e →
        e = ReserveError.OutOfTextures) ∧
    (p.regrantApplies tile = false →
        (p.reserve tile grid dist =
            Except.error ReserveError.OutOfTextures ↔
          p.candidates = [])) ∧
    (p.reserve tile grid dist = Except.error ReserveError.OutOfTextures →
        p.reserveApply tile grid dist = p) ∧
    (∀ j, j < p.numTextures →
        ((p.releaseTexture j).reserve tile grid dist).isOk = true) := by
  refine ⟨?_, ?_, ?_, ?_⟩
  · intro e _; cases e; rfl
  · intro hreg
    rw [reserve_eq_evict_of_not_regrant p tile grid dist hreg]
    exact reserveEvict_error_iff p tile grid dist
  · intro herr
    unfold TexturePool.reserveApply
    rw [herr]
  · intro j hj
    cases hres : (p.releaseTexture j).reserve tile grid dist with
    | ok r => rfl
    | error e =>
        exfalso
        cases e
        have hev := reserve_error_evict (p.releaseTexture j) tile grid dist
          ReserveError.OutOfTextures hres
        have hempty :=
          (reserveEvict_error_iff (p.releaseTexture j) tile grid dist).mp hev
        have hjmem : j ∈ (p.releaseTexture j).candidates :=
          (mem_candidates _ j).mpr ⟨hj, by
            simp [TexturePool.freeOrReclaimable, TexturePool.releaseTexture,
              Function.update_same]⟩
        rw [hempty] at hjmem
        exact absurd hjmem (by simp)

/-- Witness for C8 at a concrete pool: with the single texture held inside
the live viewport the reservation fails with `OutOfTextures` and leaves
the pool unchanged, and succeeds after the texture is released. -/
theorem c8_out_of_textures_recoverable_witness :
    poolExhausted.reserve 5 TiledPageId.pageA 0 =
        Except.error ReserveError.OutOfTextures ∧
    poolExhausted.reserveApply 5 TiledPageId.pageA 0 = poolExhausted ∧
    ((poolExhausted.releaseTexture 0).reserve 5
        TiledPageId.pageA 0).isOk = true := by
  have h := c8_out_of_textures_recoverable poolExhausted 5 TiledPageId.pageA 0
  have herr : poolExhausted.reserve 5 TiledPageId.pageA 0 =
      Except.error ReserveError.OutOfTextures :=
    (h.2.1 (by decide)).mpr (by decide)
  exact ⟨herr, h.2.2.1 herr, h.2.2.2 0 (by decide)⟩

lemma setViewport_fields (s : GLWebViewState) (tw th : ℚ) (r : SkRect)
    (sc : ℚ) :
    (s.setViewport tw th r sc).m_viewport = r ∧
      (s.setViewport tw th r sc).m_viewportScale = sc := by
  unfold GLWebViewState.setViewport
  by_cases h : s.m_viewport = r ∧ s.m_viewportScale = sc
  · rw [if_pos h]; exact h
  · rw [if_neg h]; exact ⟨rfl, rfl⟩

lemma setViewport_noop (s : GLWebViewState) (tw th : ℚ) (r : SkRect)
    (sc : ℚ) (h1 : s.m_viewport = r) (h2 : s.m_viewportScale = sc) :
    s.setViewport tw th r sc = s := by
  unfold GLWebViewState.setViewport
  rw [if_pos ⟨h1, h2⟩]

/-- C7: idempotence of `setViewport` — a second call with identical
arguments leaves the whole state (grid geometry, stored viewport, and the
invalidation counter) exactly as after the first call. -/
theorem c7_setViewport_idempotent (s : GLWebViewState) (tw th : ℚ)
    (r : SkRect) (sc : ℚ) :
    (s.setViewport tw th r sc).setViewport tw th r sc =
      s.setViewport tw th r sc :=
  setViewport_noop _ tw th r sc (setViewport_fields s tw th r sc).1
    (setViewport_fields s tw th r sc).2

/-- C9: front/back double buffering — the front and back pages are always
the two distinct `TiledPage` objects, `swapPages` exchanges the two
designations, and two consecutive swaps restore the original
designation. -/
theorem c9_front_back_swap (s : GLWebViewState) (t1 t2 : ℚ) :
    s.frontPage ≠ s.backPage ∧
    (s.swapPages t1).frontPage = s.backPage ∧
    (s.swapPages t1).backPage = s.frontPage ∧
    ((s.swapPages t1).swapPages t2).frontPage = s.frontPage ∧
    ((s.swapPages t1).swapPages t2).backPage = s.backPage := by
  cases h : s.m_usePageA <;>
    simp [GLWebViewState.frontPage, GLWebViewState.backPage,
      GLWebViewState.swapPages, h]

/-- C10: the scale-state setter is unchecked — for every `int32_t` value
`v`, including values outside the four enumerated states,
`setScaleRequestState v` stores `v`, a subsequent `scaleRequestState`
returns exactly `v`, and no other field of the state is modified. -/
theorem c10_scale_state_unchecked (s : GLWebViewState) (v : Int) :
    (s.setScaleRequestState v).scaleRequestState = v ∧
    (s.setScaleRequestState v).m_currentScale = s.m_currentScale ∧
    (s.setScaleRequestState v).m_futureScale = s.m_futureScale ∧
    (s.setScaleRequestState v).m_updateTime = s.m_updateTime ∧
    (s.setScaleRequestState v).m_transitionTime = s.m_transitionTime ∧
    (s.setScaleRequestState v).m_originalTilesPosX = s.m_originalTilesPosX ∧
    (s.setScaleRequestState v).m_originalTilesPosY = s.m_originalTilesPosY ∧
    (s.setScaleRequestState v).m_viewport = s.m_viewport ∧
    (s.setScaleRequestState v).m_viewportScale = s.m_viewportScale ∧
    (s.setScaleRequestState v).m_nbTilesWidth = s.m_nbTilesWidth ∧
    (s.setScaleRequestState v).m_nbTilesHeight = s.m_nbTilesHeight ∧
    (s.setScaleRequestState v).m_firstTileX = s.m_firstTileX ∧
    (s.setScaleRequestState v).m_firstTileY = s.m_firstTileY ∧
    (s.setScaleRequestState v).m_currentPictureCounter =
      s.m_currentPictureCounter ∧
    (s.setScaleRequestState v).m_invalidatedRect = s.m_invalidatedRect ∧
    (s.setScaleRequestState v).m_invalidationCount = s.m_invalidationCount ∧
    (s.setScaleRequestState v).m_usePageA = s.m_usePageA :=
  ⟨rfl, rfl, rfl, rfl, rfl, rfl, rfl, rfl, rfl, rfl, rfl, rfl, rfl, rfl,
    rfl, rfl, rfl⟩

/-- C6: the transition timer value `-1` is the no-transition sentinel —
`resetTransitionTime` establishes it, and any `transparency` query made
while the timer is `-1` reports full opacity. -/
theorem c6_no_transition_sentinel (s : GLWebViewState) (now : ℚ) :
    (s.resetTransitionTime).m_transitionTime = -1 ∧
    (s.m_transitionTime = -1 → s.transparency now = 1) := by
  refine ⟨rfl, fun h => ?_⟩
  simp [GLWebViewState.transparency, h]

/-- Witness for C6 at a concrete state: the freshly constructed state has
the sentinel timer and reports full opacity. -/
theorem c6_no_transition_sentinel_witness :
    initState.m_transitionTime = -1 ∧ initState.transparency 3 = 1 :=
  ⟨rfl, (c6_no_transition_sentinel initState 3).2 rfl⟩

/-- C1: debounce of zoom requests — a scale change at `t0` from the idle
state moves the machine to `kWillScheduleRequest` with deadline
`t0 + s_updateInitialDelay`; with no further change, calls strictly before
the deadline keep the state at `kWillScheduleRequest` and any call at or
after the deadline moves it to `kRequestNewScale`; every further scale
change while the request is pending moves the deadline to
`s_updateDelay` after that change's time, not cumulatively. -/
theorem c1_debounce (s : GLWebViewState) (t0 sc : ℚ)
    (h0 : s.m_scaleRequestState = kNoScaleRequest)
    (hsc : sc ≠ s.m_currentScale) :
    ((s.scheduleUpdate t0 sc).m_scaleRequestState = kWillScheduleRequest ∧
      (s.scheduleUpdate t0 sc).m_updateTime = t0 + s_updateInitialDelay) ∧
    (∀ now, now < t0 + s_updateInitialDelay →
      ((s.scheduleUpdate t0 sc).scheduleUpdate now sc).m_scaleRequestState =
        kWillScheduleRequest) ∧
    (∀ now, t0 + s_updateInitialDelay ≤ now →
      ((s.scheduleUpdate t0 sc).scheduleUpdate now sc).m_scaleRequestState =
        kRequestNewScale) ∧
    (∀ t1 sc2, sc2 ≠ sc →
      ((s.scheduleUpdate t0 sc).scheduleUpdate t1 sc2).m_updateTime =
        t1 + s_updateDelay) := by
  have hs1 : s.scheduleUpdate t0 sc =
      { s with
        m_scaleRequestState := kWillScheduleRequest
        m_futureScale := sc
        m_updateTime := t0 + s_updateInitialDelay } := by
    unfold GLWebViewState.scheduleUpdate
    rw [if_pos h0, if_pos hsc]
  refine ⟨⟨by rw [hs1], by rw [hs1]⟩, ?_, ?_, ?_⟩
  · intro now hnow
    rw [hs1]
    unfold GLWebViewState.scheduleUpdate
    rw [if_neg (by norm_num [kWillScheduleRequest, kNoScaleRequest]),
      if_pos rfl, if_neg (by simp), if_neg (not_le.mpr hnow)]
  · intro now hnow
    rw [hs1]
    unfold GLWebViewState.scheduleUpdate
    rw [if_neg (by norm_num [kWillScheduleRequest, kNoScaleRequest]),
      if_pos rfl, if_neg (by simp), if_pos hnow]
  · intro t1 sc2 hne
    rw [hs1]
    unfold GLWebViewState.scheduleUpdate
    rw [if_neg (by norm_num [kWillScheduleRequest, kNoScaleRequest]),
      if_pos rfl, if_pos hne]

/-- Witness for C1 at concrete times: a scale change to 3/2 at t=0 gives a
deadline of 3/10; a second change at t=1/5 (200 ms) moves the deadline to
3/10 (300 ms, not 600 ms); with no second change the state is still
pending at t=1/4 and requests the new scale at t=3/10. -/
theorem c1_debounce_witness :
    ((initState.scheduleUpdate 0 (3/2)).scheduleUpdate (1/5)
        (7/4)).m_updateTime = 3/10 ∧
    ((initState.scheduleUpdate 0 (3/2)).scheduleUpdate (1/4)
        (3/2)).m_scaleRequestState = kWillScheduleRequest ∧
    ((initState.scheduleUpdate 0 (3/2)).scheduleUpdate (3/10)
        (3/2)).m_scaleRequestState = kRequestNewScale := by
  have h := c1_debounce initState 0 (3/2) rfl (by norm_num [initState])
  refine ⟨?_, ?_, ?_⟩
  · rw [h.2.2.2 (1/5) (7/4) (by norm_num)]
    norm_num [s_updateDelay]
  · exact h.2.1 (1/4) (by norm_num [s_updateInitialDelay])
  · exact h.2.2.1 (3/10) (by norm_num [s_updateInitialDelay])

/-- C2: transition fade — after a swap at `swapTime`, the outgoing grid's
transparency at `now` is `clamp((1/2 - (now - swapTime)) * 2, 0, 1)`; it is
1 at `swapTime`, 0 at `swapTime + 1/2`, monotonically non-increasing in
`now`, and always within `[0, 1]`. -/
theorem c2_transition_fade (s : GLWebViewState)
    (swapTime now now1 now2 : ℚ) (hswap : swapTime ≠ -1) :
    (s.swapPages swapTime).transparency now =
        clampQ ((s_transitionDelay - (now - swapTime)) *
          s_invTransitionDelay) 0 1 ∧
    (s.swapPages swapTime).transparency swapTime = 1 ∧
    (s.swapPages swapTime).transparency (swapTime + 1/2) = 0 ∧
    (now1 ≤ now2 →
      (s.swapPages swapTime).transparency now2 ≤
        (s.swapPages swapTime).transparency now1) ∧
    0 ≤ (s.swapPages swapTime).transparency now ∧
    (s.swapPages swapTime).transparency now ≤ 1 := by
  have htr : ∀ t : ℚ, (s.swapPages swapTime).transparency t =
      clampQ ((s_transitionDelay - (t - swapTime)) *
        s_invTransitionDelay) 0 1 := by
    intro t
    unfold GLWebViewState.transparency
    rw [if_neg (by exact hswap)]
    rfl
  refine ⟨htr now, ?_, ?_, ?_, ?_, ?_⟩
  · rw [htr]
    norm_num [clampQ, s_transitionDelay, s_invTransitionDelay]
  · rw [htr]
    norm_num [clampQ, s_transitionDelay, s_invTransitionDelay]
  · intro h12
    rw [htr, htr]
    unfold clampQ
    refine max_le_max le_rfl (min_le_min le_rfl ?_)
    have : (0:ℚ) < s_invTransitionDelay := by norm_num [s_invTransitionDelay]
    nlinarith
  · rw [htr]
    exact le_max_left 0 _
  · rw [htr]
    exact max_le (by norm_num) (min_le_left 1 _)

/-- Witness for C2 at concrete values: a swap at time 1 yields transparency
1 at time 1, 1/2 at time 5/4, 0 at time 3/2, and the monotonicity and
clamping facts at those times. -/
theorem c2_transition_fade_witness :
    (initState.swapPages 1).transparency (5/4) =
        clampQ ((s_transitionDelay - (5/4 - 1)) * s_invTransitionDelay) 0 1 ∧
    (initState.swapPages 1).transparency 1 = 1 ∧
    (initState.swapPages 1).transparency (1 + 1/2) = 0 ∧
    ((9/8 : ℚ) ≤ 5/4 →
      (initState.swapPages 1).transparency (5/4) ≤
        (initState.swapPages 1).transparency (9/8)) ∧
    0 ≤ (initState.swapPages 1).transparency (5/4) ∧
    (initState.swapPages 1).transparency (5/4) ≤ 1 :=
  c2_transition_fade initState 1 (5/4) (9/8) (5/4) (by norm_num)

/-- C5 (amended): `setViewport` sets the tile counts to
`ceil(scaledViewportLength / tileLength) + 1` (a one-tile margin) and the
first visible tile indices to the floor of the scaled viewport origin over
the tile length; for a viewport of 800×480 with 256×256 tiles this yields
a grid of exactly 5×3 tiles at first tile (0, 0). -/
theorem c5_viewport_geometry (s : GLWebViewState) (tw th : ℚ) (r : SkRect)
    (sc : ℚ) (hchanged : ¬(s.m_viewport = r ∧ s.m_viewportScale = sc)) :
    ((s.setViewport tw th r sc).m_nbTilesWidth =
        ⌈r.width * sc / tw⌉ + 1 ∧
      (s.setViewport tw th r sc).m_nbTilesHeight =
        ⌈r.height * sc / th⌉ + 1 ∧
      (s.setViewport tw th r sc).m_firstTileX = ⌊r.fLeft * sc / tw⌋ ∧
      (s.setViewport tw th r sc).m_firstTileY = ⌊r.fTop * sc / th⌋) ∧
    ((initState.setViewport 256 256 ⟨0, 0, 800, 480⟩ 1).m_nbTilesWidth = 5 ∧
      (initState.setViewport 256 256
        ⟨0, 0, 800, 480⟩ 1).m_nbTilesHeight = 3 ∧
      (initState.setViewport 256 256 ⟨0, 0, 800, 480⟩ 1).m_firstTileX = 0 ∧
      (initState.setViewport 256 256 ⟨0, 0, 800, 480⟩ 1).m_firstTileY = 0) := by
  have hgen : ∀ s' : GLWebViewState, ∀ tw' th' : ℚ, ∀ r' : SkRect,
      ∀ sc' : ℚ, ¬(s'.m_viewport = r' ∧ s'.m_viewportScale = sc') →
      (s'.setViewport tw' th' r' sc').m_nbTilesWidth =
          ⌈r'.width * sc' / tw'⌉ + 1 ∧
        (s'.setViewport tw' th' r' sc').m_nbTilesHeight =
          ⌈r'.height * sc' / th'⌉ + 1 ∧
        (s'.setViewport tw' th' r' sc').m_firstTileX =
          ⌊r'.fLeft * sc' / tw'⌋ ∧
        (s'.setViewport tw' th' r' sc').m_firstTileY =
          ⌊r'.fTop * sc' / th'⌋ := by
    intro s' tw' th' r' sc' hch
    unfold GLWebViewState.setViewport
    rw [if_neg hch]
    exact ⟨rfl, rfl, rfl, rfl⟩
  have hch0 : ¬(initState.m_viewport = (⟨0, 0, 800, 480⟩ : SkRect) ∧
      initState.m_viewportScale = (1:ℚ)) := by
    simp [initState]
  obtain ⟨hw, hh, hx, hy⟩ := hgen initState 256 256 ⟨0, 0, 800, 480⟩ 1 hch0
  refine ⟨hgen s tw th r sc hchanged, ?_, ?_, ?_, ?_⟩
  · rw [hw]
    have h4 : ⌈(25:ℚ)/8⌉ = (4:ℤ) := by
      rw [Int.ceil_eq_iff] <;> norm_num
    norm_num [SkRect.width, h4]
  · rw [hh]
    have h2 : ⌈(15:ℚ)/8⌉ = (2:ℤ) := by
      rw [Int.ceil_eq_iff] <;> norm_num
    norm_num [SkRect.height, h2]
  · rw [hx]; norm_num
  · rw [hy]; norm_num

/-- Witness for C5 (amended) at concrete arguments: the 800×480 viewport at
scale 1 with 256×256 tiles, applied to the initial state. -/
theorem c5_viewport_geometry_witness :
    ((initState.setViewport 256 256 ⟨0, 0, 800, 480⟩ 1).m_nbTilesWidth =
        ⌈(SkRect.width ⟨0, 0, 800, 480⟩) * 1 / 256⌉ + 1 ∧
      (initState.setViewport 256 256 ⟨0, 0, 800, 480⟩ 1).m_nbTilesHeight =
        ⌈(SkRect.height ⟨0, 0, 800, 480⟩) * 1 / 256⌉ + 1 ∧
      (initState.setViewport 256 256 ⟨0, 0, 800, 480⟩ 1).m_firstTileX =
        ⌊(SkRect.fLeft ⟨0, 0, 800, 480⟩) * 1 / 256⌋ ∧
      (initState.setViewport 256 256 ⟨0, 0, 800, 480⟩ 1).m_firstTileY =
        ⌊(SkRect.fTop ⟨0, 0, 800, 480⟩) * 1 / 256⌋) ∧
    ((initState.setViewport 256 256 ⟨0, 0, 800, 480⟩ 1).m_nbTilesWidth = 5 ∧
      (initState.setViewport 256 256
        ⟨0, 0, 800, 480⟩ 1).m_nbTilesHeight = 3 ∧
      (initState.setViewport 256 256 ⟨0, 0, 800, 480⟩ 1).m_firstTileX = 0 ∧
      (initState.setViewport 256 256 ⟨0, 0, 800, 480⟩ 1).m_firstTileY = 0) :=
  c5_viewport_geometry initState 256 256 ⟨0, 0, 800, 480⟩ 1
    (by simp [initState])

/-- Counterexample to C5 as stated: with the spec's own formula
`ceil(viewportWidth / tileWidth) + 1` (one-tile margin), an 800×480
viewport with 256×256 tiles yields a grid 5 tiles wide
(`ceil(800/256) + 1 = 5`), not the 4 claimed. -/
theorem c5_viewport_geometry_counterexample :
    (initState.setViewport 256 256 ⟨0, 0, 800, 480⟩ 1).m_nbTilesWidth ≠ 4 := by
  have h4 : ⌈(25:ℚ)/8⌉ = (4:ℤ) := by
    rw [Int.ceil_eq_iff] <;> norm_num
  norm_num [GLWebViewState.setViewport, SkRect.width, initState, h4]
